import Mathlib

/-
Verification of the streaming-archive server (src/server.py) against its
specification.  The embedding models the two components: the Archive
Producer `create_archive_in_chunks` (an async generator reading the zip
subprocess's stdout) and the Stream Relay `archive` (the aiohttp request
handler), as executable Lean functions over explicit environments.
-/

namespace Server

/-- A byte of subprocess output, modelled as a natural number. -/
abbrev Byte := Nat

/-- State of the asyncio StreamReader attached to the subprocess's stdout.
`data` is the complete byte sequence the process writes before closing the
pipe, `pos` counts the bytes already consumed by reads, and `eofFed` records
whether feed_eof has run for the reader (it runs only after the pipe closes
and the event loop processes the close). -/
structure StdoutStream where
  data : List Byte
  pos : Nat
  eofFed : Bool
deriving DecidableEq, Repr

/-- StreamReader.at_eof: true only when EOF has been fed and the buffer is
drained. -/
def StdoutStream.at_eof (s : StdoutStream) : Bool :=
  s.eofFed && decide (s.data.length ≤ s.pos)

/-- StreamReader.read n: return up to n of the remaining bytes; once the
whole output has been consumed the reader has seen the pipe close, so EOF is
fed. -/
def StdoutStream.read (s : StdoutStream) (n : Nat) : List Byte × StdoutStream :=
  let chunk := (s.data.drop s.pos).take n
  (chunk,
   { s with
       pos := s.pos + chunk.length,
       eofFed := s.eofFed || decide (s.data.length ≤ s.pos + chunk.length) })

/-- chunk_size = chunk_kb_size * 1024 (server.py line 13). -/
def chunk_size (chunk_kb_size : Nat) : Nat := chunk_kb_size * 1024

/-- The spawned archiving command (server.py line 14). -/
def command (folder_path : String) : List String :=
  ["zip", "-r", "-", ".", folder_path]

/-- StreamReader state right after asyncio.create_subprocess_exec returns:
nothing has been read, and EOF has not been fed to the freshly attached
reader (there is no intervening await between the spawn and the first
at_eof test, so no transport callback can run in between). -/
def freshStdout (stdoutData : List Byte) : StdoutStream :=
  { data := stdoutData, pos := 0, eofFed := false }

/-- The chunk-reading loop of create_archive_in_chunks (server.py lines
23-26), exactly as written in the source:

    while process.stdout.at_eof():
        chunk = await process.stdout.read(chunk_size)
        yield chunk

The while loop is modelled by fuel-bounded recursion that tests the loop
condition before each iteration, returning the list of yielded chunks. -/
def readChunksLoop : Nat → StdoutStream → Nat → List (List Byte)
  | 0, _, _ => []
  | fuel + 1, s, size =>
    if s.at_eof then
      let r := s.read size
      r.1 :: readChunksLoop fuel r.2 size
    else []

/-- Observable events of one invocation of the create_archive_in_chunks
generator. -/
inductive PEvent
  | spawn
  | yieldChunk (c : List Byte)
  | reraisedCancelled
  | kill
  | reap
deriving DecidableEq, Repr

/-- How the consumer of the generator ends the iteration: it drains the
whole sequence, a CancelledError arrives after k chunks were consumed, or
some other exception tears the iteration down after k chunks. -/
inductive ConsumerEnd
  | exhausted
  | cancelled (k : Nat)
  | thrownIn (k : Nat)
deriving DecidableEq, Repr

/-- The chunks the consumer actually pulls out of the generator before its
iteration ends. -/
def ConsumerEnd.consumed (e : ConsumerEnd) (chunks : List (List Byte)) :
    List (List Byte) :=
  match e with
  | .exhausted => chunks
  | .cancelled k => chunks.take k
  | .thrownIn k => chunks.take k

/-- Shallow embedding of `create_archive_in_chunks` (server.py lines 12-34)
as the event trace of one invocation.  The subprocess is spawned (line 15);
the try body yields the loop's chunks as far as the consumer pulls them;
the except clause re-raises asyncio.CancelledError (lines 28-30); the
finally block (lines 31-34) runs on every exit path and kills then reaps
(communicate) the process exactly when process.returncode is still None.
`returncodeAtExit` is the value process.returncode has when the finally
block runs. -/
def create_archive_in_chunks (stdoutData : List Byte) (chunk_kb_size : Nat)
    (fuel : Nat) (consumer : ConsumerEnd) (returncodeAtExit : Option Int) :
    List PEvent :=
  let chunks := readChunksLoop fuel (freshStdout stdoutData) (chunk_size chunk_kb_size)
  let yielded := consumer.consumed chunks
  let onCancel : List PEvent :=
    match consumer with
    | .cancelled _ => [.reraisedCancelled]
    | _ => []
  let cleanup : List PEvent :=
    match returncodeAtExit with
    | none => [.kill, .reap]
    | some _ => []
  [PEvent.spawn] ++ yielded.map PEvent.yieldChunk ++ onCancel ++ cleanup

/-- Python exception kinds that are relevant to the handler: the kinds its
except chain (lines 53-70) names, TypeError (what line 38 raises), and
KeyboardInterrupt as a representative BaseException no clause catches. -/
inductive PyExc
  | typeError
  | indexError (msg : String)
  | cancelledError
  | systemExit
  | clientConnectionResetError
  | clientError
  | otherException
  | keyboardInterrupt
deriving DecidableEq, Repr

/-- The aiohttp web exceptions the handler raises.  HTTPNotFound is 404,
HTTPBadRequest is 400, HTTPInternalServerError is 500; HTTPClientError is
aiohttp's base class of the 4xx family and fixes no concrete code of its
own. -/
inductive HttpExc
  | HTTPNotFound (text : String)
  | HTTPBadRequest (text : String)
  | HTTPInternalServerError (text : String)
  | HTTPClientError (text : String)
deriving DecidableEq, Repr

/-- Status class (the hundreds digit family) of each raised web exception:
4 for the 4xx family, 5 for the 5xx family. -/
def HttpExc.statusClass : HttpExc → Nat
  | .HTTPNotFound _ => 4
  | .HTTPBadRequest _ => 4
  | .HTTPInternalServerError _ => 5
  | .HTTPClientError _ => 4

/-- Concrete status code, when the exception class fixes one. -/
def HttpExc.status : HttpExc → Option Nat
  | .HTTPNotFound _ => some 404
  | .HTTPBadRequest _ => some 400
  | .HTTPInternalServerError _ => some 500
  | .HTTPClientError _ => none

/-- The except chain of `archive` (server.py lines 53-70), in source order:
IndexError → HTTPBadRequest(str(e)); asyncio.CancelledError →
HTTPInternalServerError("Запрос был прерван"); SystemExit →
HTTPInternalServerError("Внутренняя ошибка сервера");
ClientConnectionResetError / ClientError →
HTTPClientError("Клиент разорвал соединение"); Exception →
HTTPInternalServerError("Внутренняя ошибка сервера").  KeyboardInterrupt is
a BaseException matched by no clause, so it is not converted. -/
def classifyStreamExc : PyExc → Option HttpExc
  | .indexError msg => some (.HTTPBadRequest msg)
  | .cancelledError => some (.HTTPInternalServerError "Запрос был прерван")
  | .systemExit => some (.HTTPInternalServerError "Внутренняя ошибка сервера")
  | .clientConnectionResetError => some (.HTTPClientError "Клиент разорвал соединение")
  | .clientError => some (.HTTPClientError "Клиент разорвал соединение")
  | .typeError => some (.HTTPInternalServerError "Внутренняя ошибка сервера")
  | .otherException => some (.HTTPInternalServerError "Внутренняя ошибка сервера")
  | .keyboardInterrupt => none

/-- Observable events of one run of the `archive` handler. -/
inductive REvent
  | prepared (headers : List (String × String))
  | wrote (c : List Byte)
  | slept
  | producerKill
  | producerReap
  | raisedHttp (e : HttpExc)
  | raisedUncaught (e : PyExc)
  | returnedResponse
deriving DecidableEq, Repr

/-- Headers set on the StreamResponse (server.py lines 45-46). -/
def archiveHeaders : List (String × String) :=
  [("Content-Type", "application/zip"),
   ("Content-Disposition", "attachment; filename=\"photos.zip\"")]

/-- folder_path = f"\x7bphotos_dir\x7d/\x7barchive_hash\x7d/" (line 39). -/
def folderPathOf (photos_dir archive_hash : String) : String :=
  photos_dir ++ "/" ++ archive_hash ++ "/"

/-- Environment of one archive request: the filesystem (os.path.exists),
the bytes the zip subprocess writes to stdout, fuel for the read loop, the
exception (if any) the streaming phase encounters after k completed loop
iterations, and process.returncode at producer-cleanup time. -/
structure ArchiveEnv where
  os_path_exists : String → Bool
  stdoutData : List Byte
  fuel : Nat
  fault : Option (Nat × PyExc)
  returncodeAtExit : Option Int

/-- The chunks the relay loop (server.py lines 50-52) actually writes: the
producer's chunks (create_archive_in_chunks is called with folder_path only,
so chunk_kb_size keeps its default 500), cut short after k completed
iterations when a fault strikes at iteration boundary k. -/
def relayWritten (env : ArchiveEnv) : List (List Byte) :=
  let chunks := readChunksLoop env.fuel (freshStdout env.stdoutData) (chunk_size 500)
  match env.fault with
  | none => chunks
  | some (k, _) => chunks.take k

/-- Events of the relay loop body: each written chunk (response.write,
line 51) is followed by the pacing sleep (line 52). -/
def relayWrites (env : ArchiveEnv) : List REvent :=
  ((relayWritten env).map (fun c => [REvent.wrote c, REvent.slept])).flatten

/-- Events of the producer's finally clause (server.py lines 31-34) as the
generator is unwound: kill then reap exactly when returncode is still None. -/
def relayCleanup (env : ArchiveEnv) : List REvent :=
  match env.returncodeAtExit with
  | none => [REvent.producerKill, REvent.producerReap]
  | some _ => []

/-- Final event of the handler: the prepared response is returned (line 72)
when the loop completed without a fault; a fault is mapped by the except
chain (lines 53-70) to a raised web exception when a clause matches, and
propagates uncaught otherwise. -/
def relayEnding (env : ArchiveEnv) : REvent :=
  match env.fault with
  | none => REvent.returnedResponse
  | some (_, e) =>
    match classifyStreamExc e with
    | some he => REvent.raisedHttp he
    | none => REvent.raisedUncaught e

/-- Shallow embedding of `archive` after the archive_hash extraction
(server.py lines 39-72), as the handler's event trace: validation (lines
40-42) raises HTTPNotFound before any response or process exists; otherwise
the response is prepared with the archive headers (lines 44-47), the relay
loop runs, the producer's finally clause runs when the generator is
unwound, and the handler either returns the response or raises the
classified error. -/
def archiveStream (photos_dir archive_hash : String) (env : ArchiveEnv) :
    List REvent :=
  if env.os_path_exists (folderPathOf photos_dir archive_hash) = false then
    [REvent.raisedHttp (HttpExc.HTTPNotFound "Архив не существует или был удален")]
  else
    [REvent.prepared archiveHeaders] ++ relayWrites env ++ relayCleanup env
      ++ [relayEnding env]

/-- Line 38 of the source: request.match_info.get["archive_hash"]
subscripts the bound dict.get method object, which Python rejects with
TypeError (a builtin_function_or_method object is not subscriptable), for
every request, whatever match_info contains. -/
def matchInfoGetSubscript (_matchInfo : List (String × String)) (_key : String) :
    Except PyExc String :=
  .error .typeError

/-- Shallow embedding of the whole `archive` handler (server.py lines
37-72).  Line 38 runs before the try block of lines 49-70, so the TypeError
it raises is classified by no except clause and propagates to the framework
uncaught. -/
def archive (matchInfo : List (String × String)) (photos_dir : String)
    (env : ArchiveEnv) : List REvent :=
  match matchInfoGetSubscript matchInfo "archive_hash" with
  | .error e => [REvent.raisedUncaught e]
  | .ok archive_hash => archiveStream photos_dir archive_hash env

/-- Chunk-shape invariant claimed by the spec for a produced chunk
sequence: every chunk but the last has length exactly S, and the last has
length in (0, S]. -/
def chunkLengthOk (S : Nat) (chunks : List (List Byte)) : Prop :=
  (∀ c ∈ chunks.dropLast, c.length = S) ∧
  (∀ c, chunks.getLast? = some c → 0 < c.length ∧ c.length ≤ S)

/-- A freshly attached stdout reader is not at EOF: feed_eof has not run. -/
theorem freshStdout_not_at_eof (d : List Byte) :
    (freshStdout d).at_eof = false := rfl

/-- The source's read loop tests at_eof before the first read, and a fresh
reader is not at EOF, so the loop body never executes: the loop yields the
empty chunk list whatever the process wrote. -/
theorem readChunksLoop_fresh (fuel : Nat) (d : List Byte) (size : Nat) :
    readChunksLoop fuel (freshStdout d) size = [] := by
  cases fuel with
  | zero => rfl
  | succ n => simp [readChunksLoop, freshStdout_not_at_eof]

/-- Consuming any part of an empty chunk sequence yields nothing. -/
theorem ConsumerEnd.consumed_nil (c : ConsumerEnd) :
    c.consumed [] = [] := by
  cases c <;> simp [ConsumerEnd.consumed]

/-- C1: the claim says the Producer repeatedly reads chunks until
end-of-stream, so that a process writing N > 0 bytes yields a non-empty
sequence concatenating to those bytes.  The code as written fails this: the
loop condition `while process.stdout.at_eof()` is false on a fresh stream,
so the loop body never runs — the read loop returns the empty chunk list
and the generator emits no yield event, whatever the process writes and
however consumption ends. -/
theorem C1_producer_yields_no_chunks (data : List Byte) (kb fuel : Nat)
    (consumer : ConsumerEnd) (rc : Option Int) :
    readChunksLoop fuel (freshStdout data) (chunk_size kb) = [] ∧
    ∀ c, PEvent.yieldChunk c ∉ create_archive_in_chunks data kb fuel consumer rc := by
  refine ⟨readChunksLoop_fresh _ _ _, ?_⟩
  intro c
  unfold create_archive_in_chunks
  simp only [readChunksLoop_fresh, ConsumerEnd.consumed_nil, List.map_nil]
  cases consumer <;> cases rc <;> simp

/-- C2: however consumption of the Producer ends — natural exhaustion,
cancellation, or a consumer-side exception — the finally block runs before
the invocation is over: when the process's returncode is still unset, the
kill and reap (communicate) events are the last events of the trace, so no
child process outlives the call. -/
theorem C2_cleanup_on_every_exit (data : List Byte) (kb fuel : Nat)
    (consumer : ConsumerEnd) (rc : Option Int) (h : rc = none) :
    List.IsSuffix [PEvent.kill, PEvent.reap]
      (create_archive_in_chunks data kb fuel consumer rc) := by
  subst h
  unfold create_archive_in_chunks
  exact List.suffix_append _ _

/-- Witness for C2: a concrete invocation, exhausted by its consumer with
the process still running, ends in the kill and reap events. -/
theorem C2_cleanup_on_every_exit_wit :
    List.IsSuffix [PEvent.kill, PEvent.reap]
      (create_archive_in_chunks [7] 500 5 ConsumerEnd.exhausted none) :=
  C2_cleanup_on_every_exit [7] 500 5 ConsumerEnd.exhausted none rfl

/-- C10: the cleanup step signals the subprocess only when its returncode
is still unset, and the kill-and-reap sequence runs at most once per
invocation: the trace holds exactly one kill and one reap event when the
returncode is None at exit, and none otherwise — a process that has
already exited is never killed. -/
theorem C10_kill_only_if_still_running (data : List Byte) (kb fuel : Nat)
    (consumer : ConsumerEnd) (rc : Option Int) :
    ((create_archive_in_chunks data kb fuel consumer rc).count PEvent.kill
        = if rc = none then 1 else 0) ∧
    ((create_archive_in_chunks data kb fuel consumer rc).count PEvent.reap
        = if rc = none then 1 else 0) := by
  unfold create_archive_in_chunks
  simp only [readChunksLoop_fresh, ConsumerEnd.consumed_nil, List.map_nil]
  cases consumer <;> cases rc <;>
    simp [List.count_cons, List.count_append, List.count_nil]

/-- The relay loop writes nothing: the producer supplies no chunks (the
inverted at_eof test), so truncating at any fault point still gives the
empty list. -/
theorem relayWrites_eq_nil (env : ArchiveEnv) : relayWrites env = [] := by
  unfold relayWrites relayWritten
  rcases h : env.fault with _ | ⟨k, e⟩ <;> simp [h, readChunksLoop_fresh]

/-- Trace of the handler in the validated branch. -/
theorem archiveStream_valid (pd ah : String) (env : ArchiveEnv)
    (hexists : env.os_path_exists (folderPathOf pd ah) = true) :
    archiveStream pd ah env =
      [REvent.prepared archiveHeaders] ++ relayWrites env ++ relayCleanup env
        ++ [relayEnding env] := by
  simp [archiveStream, hexists]

/-- The last event of a validated run is the relay's ending event. -/
theorem archiveStream_getLast (pd ah : String) (env : ArchiveEnv)
    (hexists : env.os_path_exists (folderPathOf pd ah) = true) :
    (archiveStream pd ah env).getLast? = some (relayEnding env) := by
  rw [archiveStream_valid pd ah env hexists, List.getLast?_concat]

/-- C3: the claim says a request whose resolved folder does not exist is
rejected with a 404-class outcome before any response is opened or process
spawned.  The code as written fails this for every request: line 38
subscripts the bound dict.get method, raising TypeError before the
existence check ever runs, so the handler's trace is a single uncaught
TypeError — HTTPNotFound is never raised and no response is prepared. -/
theorem C3_type_error_preempts_not_found (matchInfo : List (String × String))
    (pd : String) (env : ArchiveEnv) :
    archive matchInfo pd env = [REvent.raisedUncaught PyExc.typeError] ∧
    (∀ t, REvent.raisedHttp (HttpExc.HTTPNotFound t) ∉ archive matchInfo pd env) ∧
    (∀ hs, REvent.prepared hs ∉ archive matchInfo pd env) := by
  refine ⟨rfl, ?_, ?_⟩ <;> intro x <;> simp [archive, matchInfoGetSubscript]

/-- C4: the claim says a malformed or missing archive path parameter is
surfaced as a 400 bad-request outcome with priority over other failures.
The code as written never produces a 400: the addressing step itself (line
38) raises TypeError outside the try block, so no except clause — in
particular the IndexError → HTTPBadRequest clause of lines 53-55 — can run,
and every request ends in the same uncaught TypeError. -/
theorem C4_no_bad_request_outcome (matchInfo : List (String × String))
    (pd : String) (env : ArchiveEnv) :
    archive matchInfo pd env = [REvent.raisedUncaught PyExc.typeError] ∧
    (∀ t, REvent.raisedHttp (HttpExc.HTTPBadRequest t) ∉ archive matchInfo pd env) := by
  refine ⟨rfl, ?_⟩
  intro t
  simp [archive, matchInfoGetSubscript]

/-- C5: when a streaming run is cancelled, the producer's kill-and-reap
cleanup events immediately precede the classified error, which is the
5xx-class HTTPInternalServerError with the short message
"Запрос был прерван", and these three events close the trace. -/
theorem C5_cancel_cleanup_before_500 (pd ah : String) (env : ArchiveEnv)
    (k : Nat)
    (hexists : env.os_path_exists (folderPathOf pd ah) = true)
    (hfault : env.fault = some (k, PyExc.cancelledError))
    (hrc : env.returncodeAtExit = none) :
    List.IsSuffix
      [REvent.producerKill, REvent.producerReap,
       REvent.raisedHttp (HttpExc.HTTPInternalServerError "Запрос был прерван")]
      (archiveStream pd ah env) ∧
    (HttpExc.HTTPInternalServerError "Запрос был прерван").statusClass = 5 := by
  refine ⟨?_, rfl⟩
  rw [archiveStream_valid pd ah env hexists]
  have hcl : relayCleanup env = [REvent.producerKill, REvent.producerReap] := by
    simp [relayCleanup, hrc]
  have hend : relayEnding env
      = REvent.raisedHttp (HttpExc.HTTPInternalServerError "Запрос был прерван") := by
    simp [relayEnding, hfault, classifyStreamExc]
  rw [hcl, hend]
  refine ⟨[REvent.prepared archiveHeaders] ++ relayWrites env, ?_⟩
  simp

/-- A concrete environment: the directory exists, cancellation strikes at
the first iteration boundary, the process is still running at cleanup. -/
def envCancelled : ArchiveEnv :=
  { os_path_exists := fun _ => true, stdoutData := [3, 1, 4], fuel := 9,
    fault := some (0, PyExc.cancelledError), returncodeAtExit := none }

/-- Witness for C5 at a concrete request and environment. -/
theorem C5_cancel_cleanup_before_500_wit :
    envCancelled.os_path_exists (folderPathOf "./test_photos" "abc") = true ∧
    (List.IsSuffix
      [REvent.producerKill, REvent.producerReap,
       REvent.raisedHttp (HttpExc.HTTPInternalServerError "Запрос был прерван")]
      (archiveStream "./test_photos" "abc" envCancelled) ∧
    (HttpExc.HTTPInternalServerError "Запрос был прерван").statusClass = 5) :=
  ⟨rfl, C5_cancel_cleanup_before_500 "./test_photos" "abc" envCancelled 0 rfl rfl rfl⟩

/-- C6: a connection reset or client error during streaming is classified
as HTTPClientError — the 4xx family of aiohttp web exceptions — with a
short message, and that class is distinct from the HTTPInternalServerError
used for the aborted and internal classes and from HTTPBadRequest. -/
theorem C6_client_disconnect_4xx (pd ah : String) (env : ArchiveEnv)
    (k : Nat) (e : PyExc)
    (he : e = PyExc.clientConnectionResetError ∨ e = PyExc.clientError)
    (hexists : env.os_path_exists (folderPathOf pd ah) = true)
    (hfault : env.fault = some (k, e)) :
    (archiveStream pd ah env).getLast?
      = some (REvent.raisedHttp (HttpExc.HTTPClientError "Клиент разорвал соединение")) ∧
    (HttpExc.HTTPClientError "Клиент разорвал соединение").statusClass = 4 ∧
    (∀ t1 t2, HttpExc.HTTPClientError t1 ≠ HttpExc.HTTPInternalServerError t2) ∧
    (∀ t1 t2, HttpExc.HTTPClientError t1 ≠ HttpExc.HTTPBadRequest t2) := by
  refine ⟨?_, rfl, ?_, ?_⟩
  · rw [archiveStream_getLast pd ah env hexists]
    rcases he with h | h <;> subst h <;> simp [relayEnding, hfault, classifyStreamExc]
  · exact fun t1 t2 h => HttpExc.noConfusion h
  · exact fun t1 t2 h => HttpExc.noConfusion h

/-- A concrete environment: the directory exists and the client breaks the
connection at the first iteration boundary. -/
def envClientErr : ArchiveEnv :=
  { os_path_exists := fun _ => true, stdoutData := [3, 1, 4], fuel := 9,
    fault := some (0, PyExc.clientError), returncodeAtExit := some 0 }

/-- Witness for C6 at a concrete request and environment. -/
theorem C6_client_disconnect_4xx_wit :
    envClientErr.os_path_exists (folderPathOf "./test_photos" "abc") = true ∧
    ((archiveStream "./test_photos" "abc" envClientErr).getLast?
      = some (REvent.raisedHttp (HttpExc.HTTPClientError "Клиент разорвал соединение")) ∧
    (HttpExc.HTTPClientError "Клиент разорвал соединение").statusClass = 4 ∧
    (∀ t1 t2, HttpExc.HTTPClientError t1 ≠ HttpExc.HTTPInternalServerError t2) ∧
    (∀ t1 t2, HttpExc.HTTPClientError t1 ≠ HttpExc.HTTPBadRequest t2)) :=
  ⟨rfl, C6_client_disconnect_4xx "./test_photos" "abc" envClientErr 0
    PyExc.clientError (Or.inr rfl) rfl rfl⟩

/-- C7: the default configuration gives a chunk size of 500 KiB
(500 * 1024 bytes), and every chunk sequence the producer's read loop
yields satisfies the shape invariant — all chunks but the last of length
exactly S, the last of length in (0, S].  The shape part holds because the
inverted at_eof test makes every produced sequence empty. -/
theorem C7_chunk_size_and_shape :
    chunk_size 500 = 500 * 1024 ∧
    ∀ S : Nat, 0 < S → ∀ (data : List Byte) (fuel : Nat),
      chunkLengthOk S (readChunksLoop fuel (freshStdout data) S) := by
  refine ⟨rfl, ?_⟩
  intro S _ data fuel
  rw [readChunksLoop_fresh]
  exact ⟨by simp, by simp⟩

/-- Witness for C7 at a concrete chunk size and process output. -/
theorem C7_chunk_size_and_shape_wit :
    chunk_size 500 = 500 * 1024 ∧
    chunkLengthOk 1 (readChunksLoop 3 (freshStdout [5]) 1) :=
  ⟨C7_chunk_size_and_shape.1, C7_chunk_size_and_shape.2 1 (by decide) [5] 3⟩

/-- C8: in the validated branch the very first handler event prepares
(commits) the response with the archive headers — Content-Type
application/zip and the photos.zip attachment disposition — so the headers
are committed before any chunk write. -/
theorem C8_prepared_headers_first (pd ah : String) (env : ArchiveEnv)
    (hexists : env.os_path_exists (folderPathOf pd ah) = true) :
    (archiveStream pd ah env).head? = some (REvent.prepared archiveHeaders) ∧
    ("Content-Type", "application/zip") ∈ archiveHeaders ∧
    ("Content-Disposition", "attachment; filename=\"photos.zip\"") ∈ archiveHeaders := by
  refine ⟨?_, by simp [archiveHeaders], by simp [archiveHeaders]⟩
  rw [archiveStream_valid pd ah env hexists]
  simp

/-- A concrete environment: the directory exists and streaming runs to
completion with the process already exited at cleanup time. -/
def envOkStream : ArchiveEnv :=
  { os_path_exists := fun _ => true, stdoutData := [3, 1, 4], fuel := 9,
    fault := none, returncodeAtExit := some 0 }

/-- Witness for C8 at a concrete request and environment. -/
theorem C8_prepared_headers_first_wit :
    envOkStream.os_path_exists (folderPathOf "./test_photos" "abc") = true ∧
    ((archiveStream "./test_photos" "abc" envOkStream).head?
        = some (REvent.prepared archiveHeaders) ∧
    ("Content-Type", "application/zip") ∈ archiveHeaders ∧
    ("Content-Disposition", "attachment; filename=\"photos.zip\"") ∈ archiveHeaders) :=
  ⟨rfl, C8_prepared_headers_first "./test_photos" "abc" envOkStream rfl⟩

/-- C9: in the validated branch the handler ends with the returned
response exactly when the relay loop met no fault; a fault matched by an
except clause ends the run with the corresponding raised web exception, and
a fault matched by no clause propagates uncaught — never a normal return. -/
theorem C9_return_iff_no_fault (pd ah : String) (env : ArchiveEnv)
    (hexists : env.os_path_exists (folderPathOf pd ah) = true) :
    ((archiveStream pd ah env).getLast? = some REvent.returnedResponse
        ↔ env.fault = none) ∧
    (∀ k e he, env.fault = some (k, e) → classifyStreamExc e = some he →
      (archiveStream pd ah env).getLast? = some (REvent.raisedHttp he)) ∧
    (∀ k e, env.fault = some (k, e) → classifyStreamExc e = none →
      (archiveStream pd ah env).getLast? = some (REvent.raisedUncaught e)) := by
  rw [archiveStream_getLast pd ah env hexists]
  refine ⟨?_, ?_, ?_⟩
  · constructor
    · intro h
      rcases hf : env.fault with _ | ⟨k, e⟩
      · rfl
      · exfalso
        rw [relayEnding, hf] at h
        rcases hc : classifyStreamExc e with _ | he <;> simp [hc] at h
    · intro h
      simp [relayEnding, h]
  · intro k e he hf hc
    simp [relayEnding, hf, hc]
  · intro k e hf hc
    simp [relayEnding, hf, hc]

/-- Witness for C9 at a concrete request and environment. -/
theorem C9_return_iff_no_fault_wit :
    envOkStream.os_path_exists (folderPathOf "./test_photos" "abc") = true ∧
    (((archiveStream "./test_photos" "abc" envOkStream).getLast?
        = some REvent.returnedResponse ↔ envOkStream.fault = none) ∧
    (∀ k e he, envOkStream.fault = some (k, e) → classifyStreamExc e = some he →
      (archiveStream "./test_photos" "abc" envOkStream).getLast?
        = some (REvent.raisedHttp he)) ∧
    (∀ k e, envOkStream.fault = some (k, e) → classifyStreamExc e = none →
      (archiveStream "./test_photos" "abc" envOkStream).getLast?
        = some (REvent.raisedUncaught e))) :=
  ⟨rfl, C9_return_iff_no_fault "./test_photos" "abc" envOkStream rfl⟩

end Server
